import Mathlib

/-!
Verification of the spot-TWAP mirroring engine
(`learning_examples/06_copy_trading/mirror_spot_twap_orders.py`).

The Python module consumes leader TWAP lifecycle events from a stream,
classifies each event, and mirrors spot activations onto a follower account
with fixed-notional sizing, tracking leader-key → follower-order-id mappings
in a dictionary.  Below is a shallow embedding of that module: each Python
function is translated to a Lean function over explicit state, the trading
client and venue metadata are modelled as an environment record, and the
sequential message-processor loop becomes a fold over the list of queued
frames.
-/

namespace Mirror

/-! ### Python helpers: `int(...)` parsing, list indexing, `round(...)` -/

/-- Valid Python decimal-digit run after its first character: digits, with
single underscores allowed only between digits. -/
def pyDigitsTail : List Char → Bool
  | [] => true
  | '_' :: [] => false
  | '_' :: d :: rest => d.isDigit && pyDigitsTail rest
  | c :: rest => c.isDigit && pyDigitsTail rest

/-- Nonempty valid Python decimal-digit run (first char must be a digit). -/
def pyDigitsValid : List Char → Bool
  | [] => false
  | c :: rest => c.isDigit && pyDigitsTail rest

/-- Numeric value of a digit run, ignoring underscores. -/
def digitsToNat (cs : List Char) : Nat :=
  cs.foldl (fun n c => if c = '_' then n else n * 10 + (c.toNat - 48)) 0

/-- Embedding of Python `int(s)`: strip surrounding whitespace, allow one
optional sign, then a nonempty digit run (with Python-3 underscore rules);
`none` models the `ValueError` raised on any other input. -/
def pyInt (s : String) : Option Int :=
  let cs := ((s.data.dropWhile Char.isWhitespace).reverse.dropWhile
    Char.isWhitespace).reverse
  match cs with
  | '+' :: rest =>
      if pyDigitsValid rest then some (Int.ofNat (digitsToNat rest)) else none
  | '-' :: rest =>
      if pyDigitsValid rest then some (-(Int.ofNat (digitsToNat rest))) else none
  | rest =>
      if pyDigitsValid rest then some (Int.ofNat (digitsToNat rest)) else none

/-- Embedding of Python list indexing `l[i]` with negative-index wrapping;
`none` models an `IndexError`. -/
def pyListGet {α : Type} (l : List α) (i : Int) : Option α :=
  if 0 ≤ i then l.get? i.toNat
  else if (-i).toNat ≤ l.length then l.get? (l.length - (-i).toNat)
  else none

/-- Rational multiplication through `Rat.divInt`, which (unlike the
`@[irreducible]` field operations) the kernel can evaluate; agrees with `*`
(`ratMul_eq`). -/
def ratMul (a b : ℚ) : ℚ := Rat.divInt (a.num * b.num) (a.den * b.den)

/-- Rational division through `Rat.divInt`; agrees with `/` (`ratDiv_eq`). -/
def ratDiv (a b : ℚ) : ℚ := Rat.divInt (a.num * b.den) (a.den * b.num)

/-- Round a rational to the nearest integer, ties to even (Python's `round`
convention), by integer arithmetic on numerator and denominator:
`f` is the floor and `r` the nonnegative remainder, so the fractional part
`r / den` is compared with `1 / 2` by comparing `2 * r` with `den`. -/
def roundHalfEven (x : ℚ) : ℤ :=
  let f := x.num.fdiv x.den
  let r := x.num - f * x.den
  if 2 * r < (x.den : ℤ) then f
  else if (x.den : ℤ) < 2 * r then f + 1
  else if f % 2 = 0 then f else f + 1

/-- Embedding of Python `round(x, n)` for nonnegative `n`: scale by
`10 ^ n`, round half to even, scale back. -/
def pyRound (x : ℚ) (n : ℕ) : ℚ :=
  let m : ℤ := ((10 ^ n : ℕ) : ℤ)
  Rat.divInt (roundHalfEven (ratMul x (Rat.divInt m 1))) m

/-! ### Python dict on string keys (the `twap_mappings` store) -/

/-- The mapping store `twap_mappings : Dict[str, int]`, as an
insertion-ordered association list. -/
abbrev Mappings := List (String × Nat)

/-- `m.get(k)` / `k in m`. -/
def dictGet (m : Mappings) (k : String) : Option Nat :=
  (m.find? (fun p => p.1 = k)).map (fun p => p.2)

/-- `m[k] = v`: replace in place if present, else append. -/
def dictSet (m : Mappings) (k : String) (v : Nat) : Mappings :=
  if (m.find? (fun p => p.1 = k)).isSome then
    m.map (fun p => if p.1 = k then (k, v) else p)
  else m ++ [(k, v)]

/-- `del m[k]`. -/
def dictDel (m : Mappings) (k : String) : Mappings :=
  m.filter (fun p => ¬ (p.1 = k))

/-! ### Market-type detection (`detect_market_type`, `is_spot_order`) -/

/-- Kernel-reducible embedding of `String.startsWith`. -/
def strStartsWith (s pre : String) : Bool := pre.data.isPrefixOf s.data

/-- Kernel-reducible embedding of the `in` test `c in s` on characters. -/
def strContainsChar (s : String) (c : Char) : Bool := s.data.contains c

/-- Kernel-reducible embedding of string slicing `s[n:]`. -/
def strDrop (s : String) (n : Nat) : String := ⟨s.data.drop n⟩

/-- `detect_market_type(coin_field)`. -/
def detect_market_type (coin_field : String) : String :=
  if strStartsWith coin_field "@" then "SPOT"
  else if strContainsChar coin_field '/' then "SPOT"
  else "PERP"

/-- `is_spot_order(coin_field)`: basic format validation only. -/
def is_spot_order (coin_field : String) : Bool :=
  if coin_field = "" || coin_field = "N/A" then false
  else if detect_market_type coin_field ≠ "SPOT" then false
  else if strStartsWith coin_field "@" then
    match pyInt (strDrop coin_field 1) with
    | some asset_index => decide (0 ≤ asset_index)
    | none => false
  else true

/-! ### Venue metadata and asset resolution (`get_spot_asset_info`) -/

/-- One entry of `asset_ctxs`: per-asset price context.  A field is `none`
when the corresponding JSON key is absent. -/
structure AssetCtx where
  midPx : Option ℚ
  markPx : Option ℚ
deriving DecidableEq, Repr

/-- One entry of the `spot_meta` universe list: a trading pair. -/
structure PairInfo where
  name : String
  index : Nat
  tokens : List Nat
deriving DecidableEq, Repr

/-- One entry of `spot_meta["tokens"]`. -/
structure TokenInfo where
  szDecimals : Nat
deriving DecidableEq, Repr

/-- `spot_meta`. -/
structure SpotMeta where
  spotUniverse : List PairInfo
  tokens : List TokenInfo
deriving DecidableEq, Repr

/-- The venue metadata visible through the `Info` client:
`spot_meta()` and the asset contexts of `spot_meta_and_asset_ctxs()`. -/
structure InfoClient where
  spotMeta : SpotMeta
  assetCtxs : List AssetCtx
deriving DecidableEq, Repr

/-- `float(ctx.get("midPx", ctx.get("markPx", 0)))`: mid price if the key is
present, else mark price, else 0. -/
def ctxPrice (ctx : AssetCtx) : ℚ :=
  match ctx.midPx with
  | some p => p
  | none =>
    match ctx.markPx with
    | some p => p
    | none => 0

/-- Result of `get_spot_asset_info`: price, size decimals and the coin field
of the resolving call. -/
structure AssetInfo where
  price : ℚ
  szDecimals : Nat
  coin : String
deriving DecidableEq, Repr

/-- `szDecimals` selection inside `get_spot_asset_info`: base token's
`szDecimals` when the pair and token metadata are available, else 6. -/
def sizeDecimalsFor (meta : SpotMeta) (index : Int) : Nat :=
  match meta.spotUniverse.find? (fun pair => (pair.index : Int) = index) with
  | some pair_info =>
    match pair_info.tokens with
    | [] => 6
    | base_token_index :: _ =>
      match meta.tokens.get? base_token_index with
      | some token_info => token_info.szDecimals
      | none => 6
  | none => 6

/-- The `@index` branch of `get_spot_asset_info`, after the index has been
parsed (also the target of the pair-name branch's recursive call). -/
def get_spot_asset_info_idx (info : InfoClient) (index : Int) (coin_field : String) :
    Option AssetInfo :=
  if index < (info.assetCtxs.length : Int) then
    match pyListGet info.assetCtxs index with
    | none => none
    | some ctx =>
      if 0 < ctxPrice ctx then
        some ⟨ctxPrice ctx, sizeDecimalsFor info.spotMeta index, coin_field⟩
      else none
  else none

/-- `get_spot_asset_info(info, coin_field)`.  The pair-name branch looks up
the pair's index and re-enters the `@index` branch with the coin rewritten to
`"@index"` (the Python code recurses with `f"@\x7bpair_index\x7d"`, whose
parse always succeeds). -/
def get_spot_asset_info (info : InfoClient) (coin_field : String) :
    Option AssetInfo :=
  if strStartsWith coin_field "@" then
    match pyInt (strDrop coin_field 1) with
    | none => none
    | some index => get_spot_asset_info_idx info index coin_field
  else if strContainsChar coin_field '/' then
    match info.spotMeta.spotUniverse.find? (fun pair_info => pair_info.name = coin_field) with
    | some pair_info =>
      get_spot_asset_info_idx info (pair_info.index : Int)
        ("@" ++ toString pair_info.index)
    | none => none
  else none

/-! ### Trading client calls and environment -/

/-- An outbound trading-client action: the signed `twapOrder` or
`twapCancel` the engine posts. -/
inductive ClientCall where
  | placeTwap (asset : Int) (isBuy : Bool) (size : ℚ) (reduceOnly : Bool)
      (minutes : Nat) (randomize : Bool)
  | cancelTwap (asset : Int) (twapId : Nat)
deriving DecidableEq, Repr

/-- The engine's environment: venue metadata plus the trading client's
responses.  `placeResp = some id` models a successful placement returning
`twapId = id`; `placeResp = none` models any rejected or failed submission.
`cancelResp` is the cancellation outcome. -/
structure Env where
  info : InfoClient
  placeResp : Option Nat
  cancelResp : Bool
deriving DecidableEq, Repr

/-- `FIXED_ORDER_VALUE_USDC = 20.0`. -/
def FIXED_ORDER_VALUE_USDC : ℚ := 20

/-- Which failure branch of `place_follower_twap_order` returned `None`. -/
inductive PlaceError where
  | notSpot
  | resolutionError
  | sizingError
  | assetLookupError
  | submissionError
deriving DecidableEq, Repr

deriving instance DecidableEq for Except

/-- Outcome of a placement attempt: the trading-client calls it issued and
either the follower TWAP id or the failure branch taken. -/
structure PlaceOutcome where
  calls : List ClientCall
  result : Except PlaceError Nat
deriving DecidableEq, Repr

/-- The asset-index lookup shared by placement (lines 196-212) and
cancellation (lines 275-291): direct parse for `@index`, universe scan for a
pair name. -/
def lookupAssetIndex (info : InfoClient) (coin_field : String) : Option Int :=
  if strStartsWith coin_field "@" then
    pyInt (strDrop coin_field 1)
  else if strContainsChar coin_field '/' then
    (info.spotMeta.spotUniverse.find? (fun pair_info => pair_info.name = coin_field)).map
      (fun pair_info => (pair_info.index : Int))
  else none

/-- One leader TWAP event's `state` object. -/
structure TwapState where
  coin : String
  side : String
  sz : String
  minutes : Nat
  randomize : Bool
  reduceOnly : Bool
  timestamp : Nat
deriving DecidableEq, Repr

/-- `place_follower_twap_order(exchange, info, leader_twap_data)`. -/
def place_follower_twap_order (env : Env) (state : TwapState) : PlaceOutcome :=
  if is_spot_order state.coin then
    match get_spot_asset_info env.info state.coin with
    | none => ⟨[], .error .resolutionError⟩
    | some asset_info =>
      if pyRound (ratDiv FIXED_ORDER_VALUE_USDC asset_info.price)
          asset_info.szDecimals ≤ 0 then ⟨[], .error .sizingError⟩
      else
        match lookupAssetIndex env.info state.coin with
        | none => ⟨[], .error .assetLookupError⟩
        | some asset_index =>
          match env.placeResp with
          | some follower_twap_id =>
            ⟨[ClientCall.placeTwap (10000 + asset_index) (state.side = "B")
                (pyRound (ratDiv FIXED_ORDER_VALUE_USDC asset_info.price)
                  asset_info.szDecimals)
                state.reduceOnly state.minutes state.randomize],
             .ok follower_twap_id⟩
          | none =>
            ⟨[ClientCall.placeTwap (10000 + asset_index) (state.side = "B")
                (pyRound (ratDiv FIXED_ORDER_VALUE_USDC asset_info.price)
                  asset_info.szDecimals)
                state.reduceOnly state.minutes state.randomize],
             .error .submissionError⟩
  else ⟨[], .error .notSpot⟩

/-- Outcome of a cancellation attempt. -/
structure CancelOutcome where
  calls : List ClientCall
  success : Bool
deriving DecidableEq, Repr

/-- `cancel_follower_twap_order(exchange, info, follower_twap_id, coin_field)`. -/
def cancel_follower_twap_order (env : Env) (follower_twap_id : Nat)
    (coin_field : String) : CancelOutcome :=
  match lookupAssetIndex env.info coin_field with
  | none => ⟨[], false⟩
  | some asset_index =>
    ⟨[ClientCall.cancelTwap (10000 + asset_index) follower_twap_id], env.cancelResp⟩

/-! ### The event handler (`handle_leader_twap_events`) -/

/-- One entry of `twapHistory`: the state object plus the status string taken
from `twap_event["status"]["status"]` (default `"unknown"`). -/
structure TwapEvent where
  state : TwapState
  status : String
deriving DecidableEq, Repr

/-- A decoded stream frame: its `channel` and, for user frames, the
`twapHistory` list (default `[]`). -/
structure MsgData where
  channel : String
  twapHistory : List TwapEvent
deriving DecidableEq, Repr

/-- The mutable state the handler touches: `twap_mappings` plus the trace of
outbound trading-client calls, in emission order. -/
structure HandleState where
  mappings : Mappings
  calls : List ClientCall
deriving DecidableEq, Repr

/-- The TWAP matching key
`f"\x7bcoin\x7d_\x7bside\x7d_\x7bsz\x7d_\x7bminutes\x7d_\x7btimestamp\x7d"`. -/
def twapKey (state : TwapState) : String :=
  state.coin ++ "_" ++ state.side ++ "_" ++ state.sz ++ "_" ++
    toString state.minutes ++ "_" ++ toString state.timestamp

/-- The body of the `for twap_event in user_data.get("twapHistory", [])` loop
in `handle_leader_twap_events`: skip non-spot coins, skip keys already in
`twap_mappings`, mirror activations, reconcile cancellations/terminations. -/
def processTwapEvent (env : Env) (hs : HandleState) (twap_event : TwapEvent) :
    HandleState :=
  if is_spot_order twap_event.state.coin then
    if (dictGet hs.mappings (twapKey twap_event.state)).isSome then hs
    else if twap_event.status = "activated" then
      match (place_follower_twap_order env twap_event.state).result with
      | .ok follower_twap_id =>
        if follower_twap_id = 0 then
          { hs with calls :=
              hs.calls ++ (place_follower_twap_order env twap_event.state).calls }
        else
          { mappings :=
              dictSet hs.mappings (twapKey twap_event.state) follower_twap_id,
            calls :=
              hs.calls ++ (place_follower_twap_order env twap_event.state).calls }
      | .error _ =>
        { hs with calls :=
            hs.calls ++ (place_follower_twap_order env twap_event.state).calls }
    else if twap_event.status = "canceled" ∨ twap_event.status = "terminated" then
      match dictGet hs.mappings (twapKey twap_event.state) with
      | some follower_twap_id =>
        { mappings := dictDel hs.mappings (twapKey twap_event.state),
          calls := hs.calls ++
            (cancel_follower_twap_order env follower_twap_id
              twap_event.state.coin).calls }
      | none => hs
    else hs
  else hs

/-- `handle_leader_twap_events(data, exchange, info)`: on a `"user"` frame,
run the loop body over every `twapHistory` entry in order; any other channel
leaves the state untouched. -/
def handle_leader_twap_events (env : Env) (data : MsgData) (hs : HandleState) :
    HandleState :=
  if data.channel = "user" then
    data.twapHistory.foldl (processTwapEvent env) hs
  else hs

/-! ### The sequential message processor (`message_processor`) -/

/-- A queued raw frame: either `json.loads` fails on it (`malformed`) or it
decodes to a `MsgData`. -/
inductive Frame where
  | malformed
  | valid (data : MsgData)
deriving DecidableEq, Repr

/-- One iteration of the `message_processor` loop body on a dequeued frame:
a decode failure is logged and dropped; a decoded frame is handled to
completion.  Any handler error is caught by the surrounding `except` and the
loop continues (in the embedding the handler is total, errors included). -/
def processFrame (env : Env) (hs : HandleState) (frame : Frame) : HandleState :=
  match frame with
  | .malformed => hs
  | .valid data => handle_leader_twap_events env data hs

/-- The `message_processor` loop over the frames drained from the FIFO
queue, each handled fully before the next is dequeued. -/
def message_processor (env : Env) (frames : List Frame) (hs : HandleState) :
    HandleState :=
  frames.foldl (processFrame env) hs

/-! ### Sanity checks on concrete inputs -/

/-- A small concrete venue: six asset contexts where index 5 has mid price 4,
and a universe tying pair 5 (`"X/USDC"`) to a base token with 2 size
decimals. -/
def sampleInfo : InfoClient :=
  { spotMeta :=
      { spotUniverse := [⟨"X/USDC", 5, [0]⟩],
        tokens := [⟨2⟩] },
    assetCtxs :=
      [⟨none, none⟩, ⟨none, none⟩, ⟨none, none⟩, ⟨none, none⟩, ⟨none, none⟩,
       ⟨some 4, none⟩] }

/-- Environment whose placement succeeds with follower TWAP id 777. -/
def sampleEnv : Env := ⟨sampleInfo, some 777, true⟩

/-- The leader activation state of the end-to-end scenario. -/
def sampleState : TwapState := ⟨"@5", "B", "5.0", 5, false, false, 1000⟩

/-- A venue like `sampleInfo` but where asset 5 quotes mid price 0 and mark
price 0: no usable reference price. -/
def zeroPriceInfo : InfoClient :=
  { spotMeta :=
      { spotUniverse := [⟨"X/USDC", 5, [0]⟩],
        tokens := [⟨2⟩] },
    assetCtxs :=
      [⟨none, none⟩, ⟨none, none⟩, ⟨none, none⟩, ⟨none, none⟩, ⟨none, none⟩,
       ⟨some 0, some 0⟩] }

/-- Environment over `zeroPriceInfo`. -/
def zeroPriceEnv : Env := ⟨zeroPriceInfo, some 777, true⟩

/-- A venue like `sampleInfo` but where asset 5 quotes price 100 with 0 size
decimals, so the fixed-notional size 20 / 100 rounds to 0. -/
def lowPriceInfo : InfoClient :=
  { spotMeta :=
      { spotUniverse := [⟨"X/USDC", 5, [0]⟩],
        tokens := [⟨0⟩] },
    assetCtxs :=
      [⟨none, none⟩, ⟨none, none⟩, ⟨none, none⟩, ⟨none, none⟩, ⟨none, none⟩,
       ⟨some 100, none⟩] }

/-- Environment over `lowPriceInfo`. -/
def lowPriceEnv : Env := ⟨lowPriceInfo, some 777, true⟩

example : is_spot_order "@5" = true := by decide
example : is_spot_order "BTC" = false := by decide
example : is_spot_order "@abc" = false := by decide
example : is_spot_order "@-3" = false := by decide
example : is_spot_order "N/A" = false := by decide
example : is_spot_order "PURR/USDC" = true := by decide
example : pyRound (ratDiv 20 4) 2 = 5 := by decide
example : get_spot_asset_info sampleInfo "@5" = some ⟨4, 2, "@5"⟩ := by decide
example : get_spot_asset_info sampleInfo "X/USDC" = some ⟨4, 2, "@5"⟩ := by decide
example : lookupAssetIndex sampleInfo "@5" = some 5 := by decide
example :
    place_follower_twap_order sampleEnv sampleState =
      ⟨[ClientCall.placeTwap 10005 true 5 false 5 false], .ok 777⟩ := by decide
/-! ### The explicit rational operations agree with the field operations -/

theorem ratMul_eq (a b : ℚ) : ratMul a b = a * b := by
  rw [ratMul, Rat.divInt_eq_div]
  conv_rhs => rw [← Rat.num_div_den a, ← Rat.num_div_den b]
  push_cast
  rw [div_mul_div_comm]

theorem ratDiv_eq (a b : ℚ) : ratDiv a b = a / b := by
  rw [ratDiv, Rat.divInt_eq_div]
  rcases eq_or_ne b 0 with hb | hb
  · subst hb; simp
  · have hbn : (b.num : ℚ) ≠ 0 := by
      exact_mod_cast Rat.num_ne_zero.mpr hb
    have had : (a.den : ℚ) ≠ 0 := by
      exact_mod_cast a.den_nz
    have hbd : (b.den : ℚ) ≠ 0 := by
      exact_mod_cast b.den_nz
    conv_rhs => rw [← Rat.num_div_den a, ← Rat.num_div_den b]
    push_cast
    field_simp

/-! ### Helper lemmas about the mapping store and call traces -/

/-- A key present in the store is still present, with the same id, after an
append of a single further binding. -/
theorem dictGet_append_single {m : Mappings} {k : String} {v : Nat}
    (key : String) (tid : Nat) (h : dictGet m k = some v) :
    dictGet (m ++ [(key, tid)]) k = some v := by
  unfold dictGet at h ⊢
  cases hf : m.find? (fun p => p.1 = k) with
  | none => rw [hf] at h; simp at h
  | some p =>
    rw [List.find?_append, hf]
    rw [hf] at h
    exact h

/-- Every branch of the per-event handler only appends to the call trace. -/
theorem processTwapEvent_calls_append (env : Env) (hs : HandleState)
    (ev : TwapEvent) :
    ∃ l, (processTwapEvent env hs ev).calls = hs.calls ++ l := by
  unfold processTwapEvent
  repeat' split
  all_goals first
    | exact ⟨[], (List.append_nil _).symm⟩
    | exact ⟨_, rfl⟩

/-- The whole `twapHistory` loop only appends to the call trace. -/
theorem foldl_processTwapEvent_calls_append (env : Env) (evs : List TwapEvent)
    (hs : HandleState) :
    ∃ l, (evs.foldl (processTwapEvent env) hs).calls = hs.calls ++ l := by
  induction evs generalizing hs with
  | nil => exact ⟨[], by simp⟩
  | cons e es ih =>
    obtain ⟨l1, h1⟩ := processTwapEvent_calls_append env hs e
    obtain ⟨l2, h2⟩ := ih (processTwapEvent env hs e)
    refine ⟨l1 ++ l2, ?_⟩
    rw [List.foldl_cons, h2, h1, List.append_assoc]

/-- Handling one frame only appends to the call trace. -/
theorem processFrame_calls_append (env : Env) (hs : HandleState) (f : Frame) :
    ∃ l, (processFrame env hs f).calls = hs.calls ++ l := by
  cases f with
  | malformed => exact ⟨[], by simp [processFrame]⟩
  | valid d =>
    simp only [processFrame]
    unfold handle_leader_twap_events
    split
    · exact foldl_processTwapEvent_calls_append env d.twapHistory hs
    · exact ⟨[], by simp⟩

/-- A stored mapping survives one event unchanged: the handler never
overwrites an existing key (activations for a mapped key are skipped, and
the cancel branch requires the key to be absent, having passed the skip
check). -/
theorem processTwapEvent_preserves_mapping (env : Env) (hs : HandleState)
    (ev : TwapEvent) {k : String} {v : Nat}
    (h : dictGet hs.mappings k = some v) :
    dictGet (processTwapEvent env hs ev).mappings k = some v := by
  unfold processTwapEvent
  repeat' split
  all_goals try exact h
  · rename_i hspot hnmem hact x fid heq hne
    have hkey : hs.mappings.find? (fun p => p.1 = twapKey ev.state) = none := by
      cases hf : hs.mappings.find? (fun p => p.1 = twapKey ev.state) with
      | none => rfl
      | some p => simp [dictGet, hf] at hnmem
    unfold dictSet
    rw [hkey]
    simp only [Option.isSome_none, Bool.false_eq_true, if_false]
    exact dictGet_append_single _ _ h
  · rename_i hspot hnmem hnact hcanc x fid heq
    rw [heq] at hnmem
    simp at hnmem

/-- A stored mapping survives the whole `twapHistory` loop. -/
theorem foldl_processTwapEvent_preserves_mapping (env : Env)
    (evs : List TwapEvent) (hs : HandleState) {k : String} {v : Nat}
    (h : dictGet hs.mappings k = some v) :
    dictGet ((evs.foldl (processTwapEvent env) hs)).mappings k = some v := by
  induction evs generalizing hs with
  | nil => exact h
  | cons e es ih =>
    rw [List.foldl_cons]
    exact ih _ (processTwapEvent_preserves_mapping env hs e h)

/-! ### Claim theorems -/

/-- Claim C1 (refuted by the code, which contradicts its own cancel branch):
for a state in which the MirrorKey of `sampleState` is mapped to follower
order id 77, handling a Terminated event for that key is claimed to issue
exactly one cancel call with id 77 and remove the key.  The code instead
hits the self-filter (`if twap_key in twap_mappings: continue`) before the
status dispatch, so the event is skipped: no cancel call is issued and the
mapping is retained, leaving the state unchanged. -/
theorem C1_terminated_mapped_key_skipped :
    processTwapEvent sampleEnv ⟨[(twapKey sampleState, 77)], []⟩
        ⟨sampleState, "terminated"⟩ =
      ⟨[(twapKey sampleState, 77)], []⟩ := by decide

/-- Claim C2: handling an Activated event whose MirrorKey is already present
in the mapping store issues no trading-client call and leaves the store
unchanged (the handler state, calls trace included, is returned as-is). -/
theorem C2_activated_known_key_noop (env : Env) (hs : HandleState)
    (ev : TwapEvent) (_hact : ev.status = "activated")
    (hmem : (dictGet hs.mappings (twapKey ev.state)).isSome = true) :
    processTwapEvent env hs ev = hs := by
  simp [processTwapEvent, hmem]

/-- Witness for C2 at a concrete mapped activation. -/
theorem C2_activated_known_key_noop_witness :
    processTwapEvent sampleEnv ⟨[(twapKey sampleState, 777)], []⟩
        ⟨sampleState, "activated"⟩ =
      ⟨[(twapKey sampleState, 777)], []⟩ :=
  C2_activated_known_key_noop sampleEnv _ _ rfl (by decide)

/-- Claim C3: an Activated event for coin `"@5"`, side Buy, 5 minutes, with
an unmapped key, in an environment whose resolver yields asset index 5,
reference price 4 and 2 size decimals and whose placement succeeds with id
777, issues exactly one placement call `placeTwap 10005 true 5.00 false 5
false` and afterwards the store holds exactly the one entry mapping the
event's MirrorKey to 777. -/
theorem C3_activated_end_to_end :
    processTwapEvent sampleEnv ⟨[], []⟩ ⟨sampleState, "activated"⟩ =
      ⟨[(twapKey sampleState, 777)],
       [ClientCall.placeTwap 10005 true 5 false 5 false]⟩ := by decide

/-- Claim C4: whenever resolution succeeds with asset info `ai`, every
placement call the engine issues carries size
`round(20 / ai.price, ai.szDecimals)`; in particular price 4 with 2 size
decimals gives size 5; and whenever that computed size is ≤ 0, the
activation is abandoned: no placement call and no state change at all. -/
theorem C4_fixed_notional_sizing (env : Env) (st : TwapState) (ai : AssetInfo)
    (hres : get_spot_asset_info env.info st.coin = some ai) :
    (∀ a b s r m t,
        ClientCall.placeTwap a b s r m t ∈
            (place_follower_twap_order env st).calls →
          s = pyRound (ratDiv FIXED_ORDER_VALUE_USDC ai.price) ai.szDecimals) ∧
    pyRound (ratDiv FIXED_ORDER_VALUE_USDC 4) 2 = 5 ∧
    (pyRound (ratDiv FIXED_ORDER_VALUE_USDC ai.price) ai.szDecimals ≤ 0 →
      (place_follower_twap_order env st).calls = [] ∧
      ∀ hs : HandleState, processTwapEvent env hs ⟨st, "activated"⟩ = hs) := by
  refine ⟨?_, by decide, ?_⟩
  · intro a b s r m t hmem
    unfold place_follower_twap_order at hmem
    rw [hres] at hmem
    repeat' split at hmem
    all_goals simp_all
  · intro hsize
    have hcalls : (place_follower_twap_order env st).calls = [] := by
      unfold place_follower_twap_order
      cases hsp : is_spot_order st.coin with
      | false => simp [hsp]
      | true => simp [hsp, hres, hsize]
    refine ⟨hcalls, ?_⟩
    intro hs
    unfold processTwapEvent
    cases hsp : is_spot_order st.coin with
    | false => simp [hsp]
    | true =>
      by_cases hk : (dictGet hs.mappings (twapKey st)).isSome
      · simp [hsp, hk]
      · have hpl : place_follower_twap_order env st =
            ⟨[], .error .sizingError⟩ := by
          unfold place_follower_twap_order
          simp [hsp, hres, hsize]
        simp [hsp, hk, hpl]

/-- Witness for C4: at price 100 with 0 size decimals the computed size
rounds to 0 and the activation is abandoned without any call or mapping. -/
theorem C4_fixed_notional_sizing_witness :
    (place_follower_twap_order lowPriceEnv sampleState).calls = [] ∧
    processTwapEvent lowPriceEnv ⟨[], []⟩ ⟨sampleState, "activated"⟩ =
      ⟨[], []⟩ := by
  have h := C4_fixed_notional_sizing lowPriceEnv sampleState ⟨100, 0, "@5"⟩
    (by decide)
  exact ⟨(h.2.2 (by decide)).1, (h.2.2 (by decide)).2 ⟨[], []⟩⟩

/-- Counterexample to claim C5 as stated: with reference price 0 (mid and
mark both 0) the activation is abandoned on the resolution path — asset
info comes back unavailable and the error taken is `resolutionError`, not
`sizingError`; the size computation is never reached. -/
theorem C5_price_zero_not_sizing_path :
    get_spot_asset_info zeroPriceEnv.info "@5" = none ∧
    place_follower_twap_order zeroPriceEnv sampleState =
      ⟨[], .error .resolutionError⟩ ∧
    (place_follower_twap_order zeroPriceEnv sampleState).result ≠
      .error .sizingError := by decide

/-- Claim C5 as amended: when the asset context's resolved price is not
positive, asset resolution yields no asset info; a spot activation whose
resolution yields no asset info is abandoned through the resolution-error
path with no trading-client call; and handling such an activation leaves
the handler state entirely unchanged (no placement, no mapping). -/
theorem C5_zero_price_resolution_abandon :
    (∀ (info : InfoClient) (i : Int) (coin : String) (ctx : AssetCtx),
        pyListGet info.assetCtxs i = some ctx → ¬ 0 < ctxPrice ctx →
          get_spot_asset_info_idx info i coin = none) ∧
    (∀ (env : Env) (st : TwapState),
        is_spot_order st.coin = true →
        get_spot_asset_info env.info st.coin = none →
          place_follower_twap_order env st = ⟨[], .error .resolutionError⟩) ∧
    (∀ (env : Env) (st : TwapState) (hs : HandleState),
        get_spot_asset_info env.info st.coin = none →
          processTwapEvent env hs ⟨st, "activated"⟩ = hs) := by
  refine ⟨?_, ?_, ?_⟩
  · intro info i coin ctx hget hpr
    have hlt : i < (info.assetCtxs.length : Int) := by
      unfold pyListGet at hget
      by_cases h0 : 0 ≤ i
      · rw [if_pos h0] at hget
        obtain ⟨hl, _⟩ := List.get?_eq_some.mp hget
        omega
      · omega
    unfold get_spot_asset_info_idx
    rw [if_pos hlt, hget]
    simp [hpr]
  · intro env st hspot hres
    unfold place_follower_twap_order
    simp [hspot, hres]
  · intro env st hs hres
    unfold processTwapEvent
    cases hsp : is_spot_order st.coin with
    | false => simp [hsp]
    | true =>
      by_cases hk : (dictGet hs.mappings (twapKey st)).isSome
      · simp [hsp, hk]
      · have hpl : place_follower_twap_order env st =
            ⟨[], .error .resolutionError⟩ := by
          unfold place_follower_twap_order
          simp [hsp, hres]
        simp [hsp, hk, hpl]

/-- Witness for the amended C5 at the concrete zero-price environment. -/
theorem C5_zero_price_resolution_abandon_witness :
    get_spot_asset_info_idx zeroPriceEnv.info 5 "@5" = none ∧
    place_follower_twap_order zeroPriceEnv sampleState =
      ⟨[], .error .resolutionError⟩ ∧
    processTwapEvent zeroPriceEnv ⟨[], []⟩ ⟨sampleState, "activated"⟩ =
      ⟨[], []⟩ :=
  ⟨C5_zero_price_resolution_abandon.1 zeroPriceEnv.info 5 "@5" ⟨some 0, some 0⟩
      (by decide) (by decide),
   C5_zero_price_resolution_abandon.2.1 zeroPriceEnv sampleState (by decide)
      (by decide),
   C5_zero_price_resolution_abandon.2.2 zeroPriceEnv sampleState ⟨[], []⟩
      (by decide)⟩

/-- Claim C6: an event whose coin field is not recognised as spot (perpetual
name, empty, placeholder, or a malformed `@index`) is ignored entirely: no
trading-client call and no change to the handler state. -/
theorem C6_non_spot_ignored (env : Env) (hs : HandleState) (ev : TwapEvent)
    (h : is_spot_order ev.state.coin = false) :
    processTwapEvent env hs ev = hs := by
  simp [processTwapEvent, h]

/-- Witness for C6 on the malformed index reference `"@abc"`. -/
theorem C6_non_spot_ignored_witness :
    processTwapEvent sampleEnv ⟨[], []⟩
        ⟨⟨"@abc", "B", "1", 5, false, false, 0⟩, "activated"⟩ = ⟨[], []⟩ :=
  C6_non_spot_ignored sampleEnv _ _ (by decide)

/-- Claim C7: per-event errors are contained.  A frame that fails to decode
is dropped and the loop continues with the remaining frames from the same
state; a decoded frame is handled to completion (handler errors included,
since the embedded handler is total) and the loop then continues; in
particular a malformed frame followed by a valid frame leaves the first
without effect and handles the second normally. -/
theorem C7_per_event_error_containment (env : Env) (hs : HandleState) :
    (∀ rest : List Frame,
        message_processor env (Frame.malformed :: rest) hs =
          message_processor env rest hs) ∧
    (∀ (d : MsgData) (rest : List Frame),
        message_processor env (Frame.valid d :: rest) hs =
          message_processor env rest (handle_leader_twap_events env d hs)) ∧
    (∀ (d : MsgData) (rest : List Frame),
        message_processor env (Frame.malformed :: Frame.valid d :: rest) hs =
          message_processor env rest (handle_leader_twap_events env d hs)) :=
  ⟨fun _ => rfl, fun _ _ => rfl, fun _ _ => rfl⟩

/-- Claim C8: frames queued as [A, B] are processed strictly sequentially:
the final state is reached by fully handling A first and only then handling
B from A's post-state, and the emitted call trace is A's calls followed by
B's calls — so every trading-client call of A precedes every call of B and
at most one mirror action is in flight at a time. -/
theorem C8_frames_processed_sequentially (env : Env) (A B : Frame)
    (hs : HandleState) :
    message_processor env [A, B] hs =
      processFrame env (processFrame env hs A) B ∧
    ∃ ca cb,
      (processFrame env hs A).calls = hs.calls ++ ca ∧
      (message_processor env [A, B] hs).calls = hs.calls ++ ca ++ cb := by
  refine ⟨rfl, ?_⟩
  obtain ⟨ca, hca⟩ := processFrame_calls_append env hs A
  obtain ⟨cb, hcb⟩ := processFrame_calls_append env (processFrame env hs A) B
  refine ⟨ca, cb, hca, ?_⟩
  show (processFrame env (processFrame env hs A) B).calls = _
  rw [hcb, hca]

/-- Claim C9: a Terminated event whose MirrorKey is absent from the store is
a no-op (no trading-client call, state unchanged), and replaying the same
event a second time is again a no-op. -/
theorem C9_terminated_absent_noop (env : Env) (hs : HandleState)
    (st : TwapState) (h : dictGet hs.mappings (twapKey st) = none) :
    processTwapEvent env hs ⟨st, "terminated"⟩ = hs ∧
    processTwapEvent env (processTwapEvent env hs ⟨st, "terminated"⟩)
        ⟨st, "terminated"⟩ = hs := by
  have h1 : processTwapEvent env hs ⟨st, "terminated"⟩ = hs := by
    simp [processTwapEvent, h]
  exact ⟨h1, by rw [h1, h1]⟩

/-- Witness for C9 from the empty store. -/
theorem C9_terminated_absent_noop_witness :
    processTwapEvent sampleEnv ⟨[], []⟩ ⟨sampleState, "terminated"⟩ =
      ⟨[], []⟩ ∧
    processTwapEvent sampleEnv
        (processTwapEvent sampleEnv ⟨[], []⟩ ⟨sampleState, "terminated"⟩)
        ⟨sampleState, "terminated"⟩ = ⟨[], []⟩ :=
  C9_terminated_absent_noop sampleEnv ⟨[], []⟩ sampleState rfl

/-- Claim C10: a stored follower-order-id binding is write-once for its key:
after handling any further frame, a key previously mapped to `v` is either
still mapped to `v` or absent (in this code, in fact, always still mapped
to `v`). -/
theorem C10_mapping_write_once (env : Env) (d : MsgData) (hs : HandleState)
    (k : String) (v : Nat) (h : dictGet hs.mappings k = some v) :
    dictGet (handle_leader_twap_events env d hs).mappings k = some v ∨
    dictGet (handle_leader_twap_events env d hs).mappings k = none := by
  left
  unfold handle_leader_twap_events
  split
  · exact foldl_processTwapEvent_preserves_mapping env d.twapHistory hs h
  · exact h

/-- Witness for C10: an activation for the already-mapped key leaves the
binding at 77. -/
theorem C10_mapping_write_once_witness :
    dictGet (handle_leader_twap_events sampleEnv
        ⟨"user", [⟨sampleState, "activated"⟩]⟩
        ⟨[(twapKey sampleState, 77)], []⟩).mappings (twapKey sampleState) =
      some 77 ∨
    dictGet (handle_leader_twap_events sampleEnv
        ⟨"user", [⟨sampleState, "activated"⟩]⟩
        ⟨[(twapKey sampleState, 77)], []⟩).mappings (twapKey sampleState) =
      none :=
  C10_mapping_write_once sampleEnv _ _ _ 77 (by decide)

end Mirror
